import Mathlib

/-!
# BabbelSky — verification of the specified core against the source

This file shallowly embeds the parts of the BabbelSky browser extension that
the specification talks about:

* the Secret Codec (`options.js` / `background.js`: `getEncryptionKey`,
  `encryptData`, `decryptData`, `arrayBufferToBase64`, `base64ToArrayBuffer`),
* the Translation Dispatcher (`background.js` variants: `translatePost`,
  `translateWithOpenAI`, `translateWithGoogle`, `rateLimitedApiCall`),
* the options saving logic (`options.js`: `saveOptions`),
* the Page Bridge insertion / listener-attachment logic (`contentScript.js`:
  `addTranslatedText`, `initialize` + the MutationObserver path).

Browser-provided externals (WebCrypto's AES-GCM, `btoa`/`atob`,
`TextEncoder`/`TextDecoder`, `encodeURIComponent`) are not repository code;
they are modelled as an explicit `JsPlatform` record whose proof fields state
exactly the documented contracts of those APIs (AEAD round-trip and
authentication, base64 and UTF-8 inverses).  Every repository function is
parameterised by such a platform, and a small concrete `toyPlatform`
witnesses that the contract is satisfiable.

Bytes are `Nat`s below 256 in lists; keys are opaque `Nat`s; asynchronous
functions become pure functions with explicit state / randomness arguments,
and outbound HTTP turns into an oracle argument plus an explicit trace of
issued requests.
-/

/-! ## Byte-level helpers -/

/-- Flips bit `i` of the byte at position `j` of a byte list (used to state
tamper-detection properties). Positions past the end leave the list
unchanged, which is why tamper statements carry a `j < length` bound. -/
def flipBitAt (l : List Nat) (j i : Nat) : List Nat :=
  l.set j ((l.getD j 0) ^^^ 2 ^ i)

/-- Base-256 little-endian digits of a natural number, with explicit fuel so
that the recursion is structural (the fuel only needs to dominate the number
of digits; `natToBytes` instantiates it with the number itself). -/
def natToBytesAux : Nat → Nat → List Nat
  | 0, _ => []
  | fuel + 1, n => if n = 0 then [] else n % 256 :: natToBytesAux fuel (n / 256)

/-- Base-256 little-endian digits of a natural number. -/
def natToBytes (n : Nat) : List Nat :=
  natToBytesAux n n

/-- Reads a little-endian base-256 digit list back into a natural number. -/
def bytesToNat : List Nat → Nat
  | [] => 0
  | b :: bs => b + 256 * bytesToNat bs

theorem bytesToNat_natToBytesAux : ∀ fuel n, n ≤ fuel →
    bytesToNat (natToBytesAux fuel n) = n := by
  intro fuel
  induction fuel with
  | zero =>
    intro n hn
    interval_cases n
    simp [natToBytesAux, bytesToNat]
  | succ f ih =>
    intro n hn
    by_cases h0 : n = 0
    · simp [natToBytesAux, h0, bytesToNat]
    · have hdiv : n / 256 ≤ f := by
        have : n / 256 < n := Nat.div_lt_self (Nat.pos_of_ne_zero h0) (by norm_num)
        omega
      simp [natToBytesAux, h0, bytesToNat, ih _ hdiv, Nat.mod_add_div]

theorem bytesToNat_natToBytes (n : Nat) : bytesToNat (natToBytes n) = n :=
  bytesToNat_natToBytesAux n n le_rfl

theorem natToBytesAux_lt_256 : ∀ fuel n, ∀ b ∈ natToBytesAux fuel n, b < 256 := by
  intro fuel
  induction fuel with
  | zero => intro n b hb; simp [natToBytesAux] at hb
  | succ f ih =>
    intro n b hb
    by_cases h0 : n = 0
    · simp [natToBytesAux, h0] at hb
    · simp only [natToBytesAux, h0, if_false, List.mem_cons] at hb
      rcases hb with hb | hb
      · subst hb; exact Nat.mod_lt _ (by norm_num)
      · exact ih _ _ hb

theorem natToBytes_lt_256 (n : Nat) : ∀ b ∈ natToBytes n, b < 256 :=
  natToBytesAux_lt_256 n n

theorem xor_two_pow_ne (a i : Nat) : a ^^^ 2 ^ i ≠ a := by
  intro h
  have h2 : a ^^^ (a ^^^ 2 ^ i) = a ^^^ a := by rw [h]
  rw [← Nat.xor_assoc, Nat.xor_self, Nat.zero_xor] at h2
  have := Nat.two_pow_pos i
  omega

theorem getD_set_self : ∀ (l : List Nat) (j : Nat) (v : Nat), j < l.length →
    (l.set j v).getD j 0 = v := by
  intro l
  induction l with
  | nil => intro j v h; simp at h
  | cons a t ih =>
    intro j v h
    cases j with
    | zero => simp
    | succ j' =>
      simp only [List.set, List.getD, List.getElem?_cons_succ]
      have := ih j' v (by simpa using h)
      simpa [List.getD] using this

theorem set_ne_of_getD_ne (l : List Nat) (j v : Nat) (hj : j < l.length)
    (hv : v ≠ l.getD j 0) : l.set j v ≠ l := by
  intro h
  apply hv
  have := getD_set_self l j v hj
  rw [h] at this
  exact this.symm

theorem flipBitAt_ne (l : List Nat) (j i : Nat) (hj : j < l.length) :
    flipBitAt l j i ≠ l :=
  set_ne_of_getD_ne l j _ hj (xor_two_pow_ne _ _)

theorem set_append_of_lt : ∀ (l₁ l₂ : List Nat) (j v : Nat), j < l₁.length →
    (l₁ ++ l₂).set j v = l₁.set j v ++ l₂ := by
  intro l₁
  induction l₁ with
  | nil => intro l₂ j v h; simp at h
  | cons a t ih =>
    intro l₂ j v h
    cases j with
    | zero => rfl
    | succ j' =>
      show a :: (t ++ l₂).set j' v = a :: (t.set j' v ++ l₂)
      rw [ih l₂ j' v (by simpa using h)]

theorem set_append_of_ge : ∀ (l₁ l₂ : List Nat) (j v : Nat), l₁.length ≤ j →
    (l₁ ++ l₂).set j v = l₁ ++ l₂.set (j - l₁.length) v := by
  intro l₁
  induction l₁ with
  | nil => intro l₂ j v _; simp
  | cons a t ih =>
    intro l₂ j v h
    cases j with
    | zero => simp at h
    | succ j' =>
      have h' : t.length ≤ j' := by simpa using h
      have hidx : j' + 1 - (a :: t).length = j' - t.length := by
        simp only [List.length_cons]; omega
      rw [hidx]
      show a :: (t ++ l₂).set j' v = a :: (t ++ l₂.set (j' - t.length) v)
      rw [ih l₂ j' v h']

theorem getD_append_of_ge : ∀ (l₁ l₂ : List Nat) (j : Nat), l₁.length ≤ j →
    (l₁ ++ l₂).getD j 0 = l₂.getD (j - l₁.length) 0 := by
  intro l₁
  induction l₁ with
  | nil => intro l₂ j _; simp
  | cons a t ih =>
    intro l₂ j h
    cases j with
    | zero => simp at h
    | succ j' =>
      simp only [List.cons_append, List.getD, List.getElem?_cons_succ]
      have := ih l₂ j' (by simpa using h)
      simpa [List.getD] using this

/-! ## The browser platform contract

WebCrypto's AES-GCM (`crypto.subtle`), `btoa`/`atob`, `TextEncoder`/
`TextDecoder` and `encodeURIComponent` are browser externals, not repository
code.  They are modelled as a record of functions together with their
documented guarantees: AES-GCM decryption inverts encryption under the same
key and IV, authenticated decryption rejects a ciphertext with any flipped
bit and rejects a mismatching IV, ciphertexts and raw key exports are byte
strings, `atob` inverts `btoa`, decoding inverts text encoding, and importing
a raw key export yields the same key. -/

structure JsPlatform where
  subtleEncrypt : Nat → List Nat → List Nat → List Nat
  subtleDecrypt : Nat → List Nat → List Nat → Option (List Nat)
  subtleGenerateKey : Nat → Nat
  subtleExportKey : Nat → List Nat
  subtleImportKey : List Nat → Nat
  btoa : String → String
  atob : String → String
  textEncode : String → List Nat
  textDecode : List Nat → String
  uriEncode : String → String
  decrypt_encrypt : ∀ k iv pt, subtleDecrypt k iv (subtleEncrypt k iv pt) = some pt
  tamper_ct : ∀ k iv pt j i, j < (subtleEncrypt k iv pt).length →
    subtleDecrypt k iv (flipBitAt (subtleEncrypt k iv pt) j i) = none
  tamper_iv : ∀ k iv iv' pt, iv' ≠ iv →
    subtleDecrypt k iv' (subtleEncrypt k iv pt) = none
  encrypt_byte : ∀ k iv pt, ∀ b ∈ subtleEncrypt k iv pt, b < 256
  export_byte : ∀ k, ∀ b ∈ subtleExportKey k, b < 256
  import_export : ∀ k, subtleImportKey (subtleExportKey k) = k
  atob_btoa : ∀ s, atob (btoa s) = s
  textDecode_encode : ∀ s, textDecode (textEncode s) = s

/-! ## Secret Codec (options.js `arrayBufferToBase64` … `decryptData`,
background.js `getEncryptionKey`/`decryptData`) -/

/-- Embeds `arrayBufferToBase64`: builds the binary string from the bytes via
`String.fromCharCode` and base64-encodes it with `window.btoa`. -/
def arrayBufferToBase64 (P : JsPlatform) (buffer : List Nat) : String :=
  P.btoa (String.mk (buffer.map Char.ofNat))

/-- Embeds `base64ToArrayBuffer`: decodes with `window.atob` and reads the
bytes back with `charCodeAt`. -/
def base64ToArrayBuffer (P : JsPlatform) (base64 : String) : List Nat :=
  (P.atob base64).data.map Char.toNat

/-- An `EncryptedSecret` as stored: base64 IV and base64 ciphertext
(the object literal returned by `encryptData`). -/
structure EncryptedSecret where
  iv : String
  ciphertext : String
  deriving DecidableEq, Repr

/-- Embeds `encryptData`.  `generateIV()` draws 12 random bytes from
`crypto.getRandomValues`; the randomness is made explicit as the `iv`
argument. -/
def encryptData (P : JsPlatform) (iv : List Nat) (key : Nat) (data : String) :
    EncryptedSecret :=
  let ciphertext := P.subtleEncrypt key iv (P.textEncode data)
  { iv := arrayBufferToBase64 P iv
    ciphertext := arrayBufferToBase64 P ciphertext }

/-- Error message thrown by `decryptData` when `crypto.subtle.decrypt`
rejects (the catch block in options.js / background.js). -/
def decryptFailMsg : String := "Failed to decrypt data. Possible data corruption."

/-- Embeds `decryptData`: base64-decode IV and ciphertext, authenticated
decryption, decode the plaintext bytes; a rejected decryption surfaces as the
distinguishable `decryptFailMsg` error. -/
def decryptData (P : JsPlatform) (key : Nat) (ivBase64 ciphertextBase64 : String) :
    Except String String :=
  let iv := base64ToArrayBuffer P ivBase64
  let ciphertext := base64ToArrayBuffer P ciphertextBase64
  match P.subtleDecrypt key iv ciphertext with
  | some decrypted => Except.ok (P.textDecode decrypted)
  | none => Except.error decryptFailMsg

/-- Embeds `getEncryptionKey`.  The device-local storage cell
`encryptionKey` is the `localKey` argument (`none` = absent); the entropy
consumed by `crypto.subtle.generateKey` is the explicit `seed`.  Returns the
key together with the updated cell. -/
def getEncryptionKey (P : JsPlatform) (seed : Nat) (localKey : Option String) :
    Nat × Option String :=
  match localKey with
  | some stored => (P.subtleImportKey (base64ToArrayBuffer P stored), some stored)
  | none =>
    let key := P.subtleGenerateKey seed
    let exportedKeyBase64 := arrayBufferToBase64 P (P.subtleExportKey key)
    (key, some exportedKeyBase64)

theorem toNat_ofNat_of_lt (b : Nat) (h : b < 256) : (Char.ofNat b).toNat = b := by
  have hv : Nat.isValidChar b := Or.inl (by omega)
  unfold Char.ofNat
  rw [dif_pos hv]
  rfl

/-- Round trip through the binary-string/base64 pair used by the codec. -/
theorem base64_roundtrip (P : JsPlatform) (buffer : List Nat)
    (h : ∀ b ∈ buffer, b < 256) :
    base64ToArrayBuffer P (arrayBufferToBase64 P buffer) = buffer := by
  unfold base64ToArrayBuffer arrayBufferToBase64
  rw [P.atob_btoa]
  show (buffer.map Char.ofNat).map Char.toNat = buffer
  rw [List.map_map]
  calc buffer.map (Char.toNat ∘ Char.ofNat) = buffer.map id := by
        apply List.map_congr_left
        intro b hb
        exact toNat_ofNat_of_lt b (h b hb)
    _ = buffer := List.map_id buffer

/-- Shared helper: decrypting a value produced by `encryptData` under the
same key recovers the plaintext string. -/
theorem decryptData_encryptData (P : JsPlatform) (key : Nat) (iv : List Nat)
    (s : String) (hiv : ∀ b ∈ iv, b < 256) :
    decryptData P key (encryptData P iv key s).iv
      (encryptData P iv key s).ciphertext = Except.ok s := by
  unfold decryptData encryptData
  simp only
  rw [base64_roundtrip P iv hiv,
    base64_roundtrip P _ (P.encrypt_byte key iv (P.textEncode s)),
    P.decrypt_encrypt]
  simp [P.textDecode_encode]

/-! ## A concrete platform satisfying the contract

The toy cipher frames key, IV and plaintext into one number, writes its
base-256 digits and duplicates them; decryption checks that the two halves
agree (so any single flipped bit is rejected) and that key and IV match. -/

/-- Toy AEAD encryption used to witness the platform contract. -/
def toyEncrypt (k : Nat) (iv pt : List Nat) : List Nat :=
  natToBytes (Nat.pair k (Nat.pair (Encodable.encode iv) (Encodable.encode pt))) ++
  natToBytes (Nat.pair k (Nat.pair (Encodable.encode iv) (Encodable.encode pt)))

/-- Toy AEAD decryption: reject unless both halves agree and the frame was
built for this key and IV. -/
def toyDecrypt (k : Nat) (iv ct : List Nat) : Option (List Nat) :=
  if ct.take (ct.length / 2) = ct.drop (ct.length / 2) then
    if (Nat.unpair (bytesToNat (ct.take (ct.length / 2)))).1 = k ∧
        (Nat.unpair (Nat.unpair (bytesToNat (ct.take (ct.length / 2)))).2).1 =
          Encodable.encode iv then
      Encodable.decode (Nat.unpair (Nat.unpair (bytesToNat (ct.take (ct.length / 2)))).2).2
    else none
  else none

theorem toyEncrypt_halfLen (k : Nat) (iv pt : List Nat) :
    (toyEncrypt k iv pt).length / 2 =
      (natToBytes (Nat.pair k (Nat.pair (Encodable.encode iv) (Encodable.encode pt)))).length := by
  unfold toyEncrypt
  rw [List.length_append]
  omega

theorem toyDecrypt_toyEncrypt (k : Nat) (iv pt : List Nat) :
    toyDecrypt k iv (toyEncrypt k iv pt) = some pt := by
  unfold toyDecrypt
  rw [toyEncrypt_halfLen]
  unfold toyEncrypt
  rw [List.take_left, List.drop_left, if_pos rfl, bytesToNat_natToBytes]
  simp [Nat.unpair_pair, Encodable.encodek]

theorem toyDecrypt_tamper_ct (k : Nat) (iv pt : List Nat) (j i : Nat)
    (hj : j < (toyEncrypt k iv pt).length) :
    toyDecrypt k iv (flipBitAt (toyEncrypt k iv pt) j i) = none := by
  set ds := natToBytes (Nat.pair k (Nat.pair (Encodable.encode iv) (Encodable.encode pt)))
    with hds
  have hct : toyEncrypt k iv pt = ds ++ ds := rfl
  rw [hct] at hj ⊢
  rw [List.length_append] at hj
  by_cases hcase : j < ds.length
  · have hset : flipBitAt (ds ++ ds) j i = ds.set j ((ds.getD j 0) ^^^ 2 ^ i) ++ ds := by
      unfold flipBitAt
      rw [List.getD_append _ _ _ _ hcase, set_append_of_lt _ _ _ _ hcase]
    rw [hset]
    unfold toyDecrypt
    have hlen : (ds.set j ((ds.getD j 0) ^^^ 2 ^ i) ++ ds).length / 2 =
        (ds.set j ((ds.getD j 0) ^^^ 2 ^ i)).length := by
      rw [List.length_append, List.length_set]
      omega
    rw [hlen, List.take_left, List.drop_left]
    rw [if_neg (set_ne_of_getD_ne ds j _ hcase (xor_two_pow_ne _ _))]
  · have hge : ds.length ≤ j := Nat.le_of_not_lt hcase
    have hj2 : j - ds.length < ds.length := by omega
    have hset : flipBitAt (ds ++ ds) j i =
        ds ++ ds.set (j - ds.length) ((ds.getD (j - ds.length) 0) ^^^ 2 ^ i) := by
      unfold flipBitAt
      rw [getD_append_of_ge _ _ _ hge, set_append_of_ge _ _ _ _ hge]
    rw [hset]
    unfold toyDecrypt
    have hlen : (ds ++ ds.set (j - ds.length) ((ds.getD (j - ds.length) 0) ^^^ 2 ^ i)).length / 2 =
        ds.length := by
      rw [List.length_append, List.length_set]
      omega
    rw [hlen, List.take_left, List.drop_left]
    rw [if_neg fun h =>
      set_ne_of_getD_ne ds (j - ds.length) _ hj2 (xor_two_pow_ne _ _) h.symm]

theorem toyDecrypt_tamper_iv (k : Nat) (iv iv' pt : List Nat) (hne : iv' ≠ iv) :
    toyDecrypt k iv' (toyEncrypt k iv pt) = none := by
  unfold toyDecrypt
  rw [toyEncrypt_halfLen]
  unfold toyEncrypt
  rw [List.take_left, List.drop_left, if_pos rfl, bytesToNat_natToBytes]
  rw [Nat.unpair_pair]
  rw [if_neg]
  intro h
  exact hne (Encodable.encode_injective (by simpa [Nat.unpair_pair] using h.2)).symm

theorem toyEncrypt_byte (k : Nat) (iv pt : List Nat) :
    ∀ b ∈ toyEncrypt k iv pt, b < 256 := by
  intro b hb
  unfold toyEncrypt at hb
  rw [List.mem_append] at hb
  rcases hb with hb | hb <;> exact natToBytes_lt_256 _ b hb

/-- A concrete platform: witnesses that the `JsPlatform` contract is
satisfiable, and instantiates every claim theorem on concrete inputs. -/
def toyPlatform : JsPlatform where
  subtleEncrypt := toyEncrypt
  subtleDecrypt := toyDecrypt
  subtleGenerateKey := fun seed => seed
  subtleExportKey := natToBytes
  subtleImportKey := bytesToNat
  btoa := fun s => s
  atob := fun s => s
  textEncode := fun s => s.data.map Char.toNat
  textDecode := fun l => String.mk (l.map Char.ofNat)
  uriEncode := fun s => s
  decrypt_encrypt := toyDecrypt_toyEncrypt
  tamper_ct := toyDecrypt_tamper_ct
  tamper_iv := fun k iv iv' pt h => toyDecrypt_tamper_iv k iv iv' pt h
  encrypt_byte := toyEncrypt_byte
  export_byte := fun k => natToBytes_lt_256 k
  import_export := bytesToNat_natToBytes
  atob_btoa := fun _ => rfl
  textDecode_encode := by
    intro s
    show String.mk ((s.data.map Char.toNat).map Char.ofNat) = s
    rw [List.map_map]
    have h1 : s.data.map (Char.ofNat ∘ Char.toNat) = s.data.map id :=
      List.map_congr_left (fun c _ => Char.ofNat_toNat c)
    rw [h1, List.map_id]

/-! ## JS string replace (first occurrence, with GetSubstitution)

`String.prototype.replace` with a *string* pattern replaces only the first
occurrence of the pattern, and — even for a string pattern — runs the
replacement string through ECMA-262 `GetSubstitution`: `$$` yields a literal
dollar, `$&` the matched text, a dollar followed by a backquote the part of
the subject before the match, `$'` the part after the match; a search with
a string pattern has no capture groups, so `$1`, `$<name>` and any other
`$`-sequence stay literal.  (For the nonempty patterns used by the code this
recursion matches JS exactly.) -/

/-- The backquote character, U+0060 (named to keep it out of literals). -/
def backquoteChar : Char := Char.ofNat 96

/-- The single-quote character, U+0027 (named to keep it out of literals). -/
def singleQuoteChar : Char := Char.ofNat 39

/-- ECMA-262 `GetSubstitution` over the replacement characters: `matched` is
the matched text, `before` the part of the subject preceding the match and
`after` the part following it. -/
def getSubstitutionAux (matched before after : List Char) : List Char → List Char
  | [] => []
  | ['$'] => ['$']
  | '$' :: c :: rest =>
    if c = '$' then '$' :: getSubstitutionAux matched before after rest
    else if c = '&' then matched ++ getSubstitutionAux matched before after rest
    else if c = backquoteChar then before ++ getSubstitutionAux matched before after rest
    else if c = singleQuoteChar then after ++ getSubstitutionAux matched before after rest
    else '$' :: c :: getSubstitutionAux matched before after rest
  | c :: rest => c :: getSubstitutionAux matched before after rest

/-- Replace the first occurrence of `pat` in the character list, applying
`GetSubstitution` to `rep`; `seen` accumulates the already-scanned prefix in
reverse (needed for the dollar-backquote escape). -/
def replaceFirstAux (pat rep : List Char) : List Char → List Char → List Char
  | _, [] => []
  | seen, c :: rest =>
    if pat.isPrefixOf (c :: rest) then
      getSubstitutionAux pat seen.reverse ((c :: rest).drop pat.length) rep ++
        (c :: rest).drop pat.length
    else c :: replaceFirstAux pat rep (c :: seen) rest

/-- Embeds `s.replace(pat, rep)` for a string pattern: first occurrence
only, `$`-escapes in the replacement interpreted per `GetSubstitution`. -/
def jsReplace (s pat rep : String) : String :=
  String.mk (replaceFirstAux pat.data rep.data [] s.data)

/-- Sanity checks of the `GetSubstitution` escapes against the behaviour of
JS `"a{TEXT}b".replace("{TEXT}", rep)` for each escape form. -/
theorem jsReplace_dollar_escapes :
    jsReplace "a{TEXT}b" "{TEXT}" "$$" = "a$b" ∧
    jsReplace "a{TEXT}b" "{TEXT}" "X$&Y" = "aX{TEXT}Yb" ∧
    jsReplace "a{TEXT}b" "{TEXT}" (String.mk ['$', backquoteChar]) = "aab" ∧
    jsReplace "a{TEXT}b" "{TEXT}" (String.mk ['$', singleQuoteChar]) = "abb" ∧
    jsReplace "a{TEXT}b" "{TEXT}" "$1" = "a$1b" ∧
    jsReplace "a{TEXT}b" "{TEXT}" "$" = "a$b" := by
  refine ⟨?_, ?_, ?_, ?_, ?_, ?_⟩ <;> decide

/-- Embeds `s.trim()`: strips leading and trailing whitespace (structural
recursion over the character list, so that concrete instances compute). -/
def jsTrim (s : String) : String :=
  String.mk (((s.data.dropWhile Char.isWhitespace).reverse.dropWhile
    Char.isWhitespace).reverse)

/-! ## Translation Dispatcher (background.js and its `src/unnamed` variants) -/

/-- A chat message in the OpenAI request body. -/
structure ChatMessage where
  role : String
  content : String
  deriving DecidableEq, Repr

/-- The JSON body POSTed to the OpenAI chat-completions endpoint. -/
structure OpenAIBody where
  model : String
  messages : List ChatMessage
  deriving DecidableEq, Repr

/-- An outbound HTTP request issued by the dispatcher (the trace element). -/
inductive HttpRequest where
  | post (url : String) (body : OpenAIBody)
  | get (url : String)
  deriving DecidableEq, Repr

/-- The `message` object of an OpenAI choice. -/
structure OpenAIMessage where
  content : String
  deriving DecidableEq, Repr

/-- One element of `choices` in an OpenAI response. -/
structure OpenAIChoice where
  message : OpenAIMessage
  deriving DecidableEq, Repr

/-- A parsed OpenAI response; `choices` is `none` when the field is absent
(the code tests `data.choices && data.choices.length`). -/
structure OpenAIResponse where
  choices : Option (List OpenAIChoice)
  deriving DecidableEq, Repr

/-- One element of `data.translations` in a Google response. -/
structure GoogleTranslation where
  translatedText : String
  deriving DecidableEq, Repr

/-- The `data` object of a Google response; `translations` is `none` when
absent (the code tests `data.data && data.data.translations && …length`). -/
structure GoogleData where
  translations : Option (List GoogleTranslation)
  deriving DecidableEq, Repr

/-- A parsed Google Translate response. -/
structure GoogleResponse where
  data : Option GoogleData
  deriving DecidableEq, Repr

/-- The network is an oracle: it maps the issued request to either a parsed
JSON response or the error thrown for a non-OK status
(`rateLimitedApiCall` / the legacy `!response.ok` checks). -/
def OpenAIFetch : Type := OpenAIBody → Except String OpenAIResponse

/-- Oracle for the Google GET endpoint, keyed by the full request URL. -/
def GoogleFetch : Type := String → Except String GoogleResponse

/-- URL of the OpenAI chat-completions endpoint. -/
def openAIChatUrl : String := "https://api.openai.com/v1/chat/completions"

/-- The fixed system message of the OpenAI request (src/unnamed/part_001
lines 175-180). -/
def openAISystemMessage : ChatMessage :=
  { role := "system"
    content := "You are a helpful assistant that translates text with an emphasis on clear meaning." }

/-- The `promptWithTarget` built by `translateWithOpenAI` (lines 172-174):
JS `String.replace` with a string pattern substitutes only the first
occurrence of `{TARGET}` and only the first occurrence of `{TEXT}`, and
interprets `GetSubstitution` dollar-escapes in the replacement values (the
target-language name and the post text). -/
def promptWithTarget (prompt targetLanguageName text : String) : String :=
  jsReplace (jsReplace prompt "{TARGET}" targetLanguageName) "{TEXT}" text

/-- The JSON body POSTed by `translateWithOpenAI` (lines 188-198). -/
def openAIRequestBody (prompt targetLanguageName text : String) : OpenAIBody :=
  { model := "gpt-4o-mini"
    messages := [openAISystemMessage,
      { role := "user", content := promptWithTarget prompt targetLanguageName text }] }

/-- Embeds `translateWithOpenAI` (src/unnamed/part_001 lines 171-206; the
background.js variant differs only in passing the language code instead of
the language name and in calling fetch directly).  Returns the dispatcher
result together with the trace of issued HTTP requests; the `apiKey` rides
in the Authorization bearer header, which the trace does not record. -/
def translateWithOpenAI (ofetch : OpenAIFetch)
    (text apiKey targetLanguageName prompt : String) :
    Except String String × List HttpRequest :=
  let body : OpenAIBody := openAIRequestBody prompt targetLanguageName text
  let _ := apiKey
  match ofetch body with
  | Except.error e => (Except.error e, [HttpRequest.post openAIChatUrl body])
  | Except.ok data =>
    match data.choices with
    | some (c :: _) =>
      (Except.ok (jsTrim c.message.content), [HttpRequest.post openAIChatUrl body])
    | _ =>
      (Except.error "OpenAI translation failed. Data returned:",
        [HttpRequest.post openAIChatUrl body])

/-- The Google Translate request URL built by `translateWithGoogle`. -/
def googleTranslateUrl (P : JsPlatform) (apiKey text targetLanguage : String) :
    String :=
  "https://translation.googleapis.com/language/translate/v2?key=" ++ apiKey ++
    "&q=" ++ P.uriEncode text ++ "&target=" ++ targetLanguage

/-- Embeds `translateWithGoogle` (src/unnamed/part_001 lines 215-227). -/
def translateWithGoogle (P : JsPlatform) (gfetch : GoogleFetch)
    (text apiKey targetLanguage : String) :
    Except String String × List HttpRequest :=
  let url := googleTranslateUrl P apiKey text targetLanguage
  match gfetch url with
  | Except.error e => (Except.error e, [HttpRequest.get url])
  | Except.ok data =>
    match data.data with
    | some d =>
      match d.translations with
      | some (t :: _) => (Except.ok t.translatedText, [HttpRequest.get url])
      | _ =>
        (Except.error "Google Translate API translation failed.", [HttpRequest.get url])
    | none =>
      (Except.error "Google Translate API translation failed.", [HttpRequest.get url])

/-- The settings record read by `translatePost` from synced storage
(`encrypted…ApiKey` are the stored `EncryptedSecret`s, `none` when absent;
`translationService` is `none` for null/absent). -/
structure TPSettings where
  encryptedGoogleApiKey : Option EncryptedSecret
  encryptedOpenaiApiKey : Option EncryptedSecret
  targetLanguage : String
  targetLanguageName : String
  openaiPrompt : String
  translationService : Option String

/-- Embeds `translatePost` of src/unnamed/part_001 (lines 82-141, same as
part_002/part_003): branch on the selected service, require the matching
encrypted credential, decrypt it, call the matching provider; otherwise
throw 'Invalid translation service or missing API key.'. -/
def translatePost (P : JsPlatform) (seed : Nat) (localKey : Option String)
    (gfetch : GoogleFetch) (ofetch : OpenAIFetch)
    (settings : TPSettings) (post : String) :
    Except String String × List HttpRequest :=
  match settings.translationService with
  | none => (Except.error "No translation service selected.", [])
  | some svc =>
    let key := (getEncryptionKey P seed localKey).1
    if hG : svc = "Google" ∧ settings.encryptedGoogleApiKey.isSome then
      let enc := settings.encryptedGoogleApiKey.get hG.2
      match decryptData P key enc.iv enc.ciphertext with
      | Except.error e => (Except.error e, [])
      | Except.ok googleApiKey =>
        translateWithGoogle P gfetch post googleApiKey settings.targetLanguage
    else if hO : svc = "OpenAI" ∧ settings.encryptedOpenaiApiKey.isSome then
      let enc := settings.encryptedOpenaiApiKey.get hO.2
      match decryptData P key enc.iv enc.ciphertext with
      | Except.error e => (Except.error e, [])
      | Except.ok openaiApiKey =>
        translateWithOpenAI ofetch post openaiApiKey settings.targetLanguageName
          settings.openaiPrompt
    else
      (Except.error "Invalid translation service or missing API key.", [])

/-- Embeds `translatePost` of background.js (lines 60-95).  This variant
tests `translationService === 'Google' && googleApiKey` where `googleApiKey`
is the local variable initialised to `''` two lines earlier, so the Google
branch is unreachable (the embedded branch body eliminates the contradictory
hypothesis). -/
def translatePostLegacy (P : JsPlatform) (seed : Nat) (localKey : Option String)
    (_gfetch : GoogleFetch) (ofetch : OpenAIFetch)
    (settings : TPSettings) (post : String) :
    Except String String × List HttpRequest :=
  match settings.translationService with
  | none => (Except.error "No translation service selected.", [])
  | some svc =>
    let key := (getEncryptionKey P seed localKey).1
    let googleApiKey : String := ""
    if hG : svc = "Google" ∧ googleApiKey ≠ "" then
      (hG.2 rfl).elim
    else if hO : svc = "OpenAI" ∧ settings.encryptedOpenaiApiKey.isSome then
      let enc := settings.encryptedOpenaiApiKey.get hO.2
      match decryptData P key enc.iv enc.ciphertext with
      | Except.error e => (Except.error e, [])
      | Except.ok openaiApiKey =>
        translateWithOpenAI ofetch post openaiApiKey settings.targetLanguage
          settings.openaiPrompt
    else
      (Except.error "Invalid translation service or missing API key.", [])

/-! ## Rate limiting

Sequential small-step model: a call to `rateLimitedApiCall` at wall-clock
time `now` computes its delay from the recorded timestamp, sleeps, stores
`Date.now()` (= the moment the fetch is issued) and fetches.  The function
returns the fetch instant together with the updated timestamp state. -/

/-- Embeds `rateLimitedApiCall` of src/unnamed/part_001 (lines 143-161):
the timestamp lives in `apiCallTracker[url]`, i.e. it is keyed by the full
request URL (`tracker url = 0` models the absent entry `|| 0`). -/
def rateLimitedApiCallPerUrl (tracker : String → Nat) (url : String) (now : Nat) :
    Nat × (String → Nat) :=
  let lastApiCallTime := tracker url
  let timeSinceLastCall := now - lastApiCallTime
  if timeSinceLastCall < 2000 then
    (now + (2000 - timeSinceLastCall),
      fun u => if u = url then now + (2000 - timeSinceLastCall) else tracker u)
  else
    (now, fun u => if u = url then now else tracker u)

/-- Embeds `rateLimitedApiCall` of src/unnamed/part_002 (lines 139-156):
one module-global `lastApiCallTime` shared by both providers. -/
def rateLimitedApiCallGlobal (lastApiCallTime now : Nat) : Nat × Nat :=
  let timeSinceLastCall := now - lastApiCallTime
  if timeSinceLastCall < 2000 then
    (now + (2000 - timeSinceLastCall), now + (2000 - timeSinceLastCall))
  else
    (now, now)

/-! ## Options saving (options.js `saveOptions`, lines 383-455) -/

/-- Default OpenAI translation prompt (options.js line 7). -/
def defaultOpenAIPrompt : String :=
  "Translate the following text to natural {TARGET}:\n\n{TEXT}"

/-- The form fields read by `saveOptions` (`.value` of the inputs and
`.checked` of the two service checkboxes). -/
structure SaveInputs where
  googleApiKeyField : String
  openaiApiKeyField : String
  targetLanguage : String
  openaiPromptField : String
  serviceOpenAIChecked : Bool
  serviceGoogleChecked : Bool

/-- Net contents of synced storage after `saveOptions` finishes: the single
`setStorage(itemsToSet)` plus the `removeStorage` calls for cleared keys and
the trailing `setStorage({translationService: null})` when no service
qualified.  (The `targetLanguageName` lookup in the `languages` table is a
pure UI datum and is left out of the outcome.) -/
structure SaveOutcome where
  targetLanguage : String
  openaiPrompt : String
  translationService : Option String
  encryptedGoogleApiKey : Option EncryptedSecret
  encryptedOpenaiApiKey : Option EncryptedSecret

/-- Embeds `saveOptions`.  The encryption key obtained from
`getEncryptionKey()` is the `key` argument; `ivG`/`ivO` are the fresh random
IVs drawn by the two `encryptData` calls. -/
def saveOptions (P : JsPlatform) (ivG ivO : List Nat) (key : Nat)
    (inp : SaveInputs) : SaveOutcome :=
  let googleApiKey := jsTrim inp.googleApiKeyField
  let openaiApiKey := jsTrim inp.openaiApiKeyField
  let openaiPrompt :=
    if jsTrim inp.openaiPromptField = "" then defaultOpenAIPrompt
    else jsTrim inp.openaiPromptField
  let translationService : Option String :=
    if inp.serviceOpenAIChecked = true ∧ openaiApiKey ≠ "" then some "OpenAI"
    else if inp.serviceGoogleChecked = true ∧ googleApiKey ≠ "" then some "Google"
    else none
  { targetLanguage := inp.targetLanguage
    openaiPrompt := openaiPrompt
    translationService := translationService
    encryptedGoogleApiKey :=
      if googleApiKey ≠ "" then some (encryptData P ivG key googleApiKey) else none
    encryptedOpenaiApiKey :=
      if openaiApiKey ≠ "" then some (encryptData P ivO key openaiApiKey) else none }

/-! ## Page Bridge: translated-text insertion (contentScript.js
`addTranslatedText`)

A post is modelled by the list of blocks sitting after its original text
element (nearest sibling first); `insertBefore(el, textElement.nextSibling)`
prepends to that list.  The injected paragraphs are the only elements
carrying the `babbelsky-translated-text` class, so the `querySelector`
guards become searches of this list. -/

/-- A block inserted after the post's text element: its class, its
`data-original` attribute (`none` = attribute absent) and its text. -/
structure TransBlock where
  className : String
  dataOriginal : Option String
  text : String
  deriving DecidableEq, Repr

/-- Embeds `addTranslatedText` of the first contentScript.js version
(lines 105-142): guard is `querySelector('.babbelsky-translated-text')`. -/
def addTranslatedTextV1 (siblings : List TransBlock) (translatedText : String) :
    List TransBlock :=
  if siblings.any (fun b => b.className = "babbelsky-translated-text") then
    siblings
  else
    { className := "babbelsky-translated-text", dataOriginal := none
      text := translatedText } :: siblings

/-- JS template interpolation of a possibly-undefined value:
`${button.dataset.original}` prints the string `undefined` when the control
has no `data-original` attribute. -/
def jsTemplateValue : Option String → String
  | none => "undefined"
  | some s => s

/-- Embeds `addTranslatedText` of the second contentScript.js version
(lines 319-356): the guard selector is
`.babbelsky-translated-text[data-original="${translateButton.dataset.original}"]`,
an attribute selector that only matches elements that *have* a
`data-original` attribute with that exact value. -/
def addTranslatedTextV2 (btnOriginal : Option String)
    (siblings : List TransBlock) (translatedText : String) : List TransBlock :=
  if siblings.any (fun b => b.className = "babbelsky-translated-text" ∧
      b.dataOriginal = some (jsTemplateValue btnOriginal)) then
    siblings
  else
    { className := "babbelsky-translated-text", dataOriginal := none
      text := translatedText } :: siblings

/-! ## Page Bridge: listener attachment (contentScript.js `initialize` and
the MutationObserver callbacks)

Per control instance, the relevant state is how many click handlers have
been attached and whether the `data-babbelsky-listener` marker attribute is
set.  Two kinds of events reach a control: the one-shot initialisation at
DOM-ready, and any number of MutationObserver callbacks that find the
control again. -/

/-- An event that can lead to a listener attachment on the control. -/
inductive BridgeEvent where
  | pageInit
  | mutation
  deriving DecidableEq, Repr

/-- Listener-attachment state of one translate control. -/
structure ControlState where
  listeners : Nat
  marker : Bool
  deriving DecidableEq, Repr

/-- First contentScript.js version: `initialize` (lines 146-156) attaches
unconditionally and does not touch the marker; `observeTranslateButton`
(lines 161-181) checks `hasAttribute('data-babbelsky-listener')`, sets the
marker and attaches. -/
def attachStepV1 (s : ControlState) : BridgeEvent → ControlState
  | BridgeEvent.pageInit => { listeners := s.listeners + 1, marker := s.marker }
  | BridgeEvent.mutation =>
    if s.marker then s else { listeners := s.listeners + 1, marker := true }

/-- Second contentScript.js version: `initialize` (lines 360-373) attaches
unconditionally and then sets the marker; `observeTranslationButton`
(lines 379-407) checks the marker, sets it and attaches. -/
def attachStepV2 (s : ControlState) : BridgeEvent → ControlState
  | BridgeEvent.pageInit => { listeners := s.listeners + 1, marker := true }
  | BridgeEvent.mutation =>
    if s.marker then s else { listeners := s.listeners + 1, marker := true }

/-- Runs a sequence of events against a fresh control (no listener, no
marker). -/
def runBridge (step : ControlState → BridgeEvent → ControlState)
    (evs : List BridgeEvent) : ControlState :=
  evs.foldl step { listeners := 0, marker := false }

/-! ## Claim theorems -/

theorem getD_lt_256 (l : List Nat) (j : Nat) (hl : ∀ b ∈ l, b < 256) :
    l.getD j 0 < 256 := by
  rw [List.getD_eq_getElem?_getD]
  cases h : l[j]? with
  | none => simp
  | some x =>
    have hx : x ∈ l := List.getElem?_mem h
    simpa using hl x hx

theorem flipBitAt_lt_256 (l : List Nat) (j i : Nat)
    (hl : ∀ b ∈ l, b < 256) (hi : i < 8) : ∀ b ∈ flipBitAt l j i, b < 256 := by
  intro b hb
  unfold flipBitAt at hb
  rcases List.mem_or_eq_of_mem_set hb with h | h
  · exact hl b h
  · subst h
    have h1 : l.getD j 0 < 2 ^ 8 := getD_lt_256 l j hl
    have h2 : 2 ^ i < 2 ^ 8 := Nat.pow_lt_pow_right (by norm_num) hi
    exact Nat.xor_lt_two_pow h1 h2

/-- C1: for every platform satisfying the WebCrypto AES-GCM contract, every
key, every byte-valued IV drawn by `generateIV` and every string `s`,
decrypting the output of `encryptData` under the same key — that is,
`decryptData key e.iv e.ciphertext` for `e = encryptData key s` — returns
exactly `s`. -/
theorem c1_encrypt_decrypt_roundtrip (P : JsPlatform) (key : Nat) (iv : List Nat)
    (s : String) (hiv : ∀ b ∈ iv, b < 256) :
    decryptData P key (encryptData P iv key s).iv
      (encryptData P iv key s).ciphertext = Except.ok s :=
  decryptData_encryptData P key iv s hiv

theorem c1_witness :
    (∀ b ∈ [0, 1, 2, 3, 4, 5, 6, 7, 8, 9, 10, 11], b < 256) ∧
    decryptData toyPlatform 5
      (encryptData toyPlatform [0, 1, 2, 3, 4, 5, 6, 7, 8, 9, 10, 11] 5 "hello").iv
      (encryptData toyPlatform [0, 1, 2, 3, 4, 5, 6, 7, 8, 9, 10, 11] 5 "hello").ciphertext =
      Except.ok "hello" :=
  ⟨by decide,
    c1_encrypt_decrypt_roundtrip toyPlatform 5 _ "hello" (by decide)⟩

/-- C5: flipping any bit of the stored ciphertext bytes, or any bit of the
stored nonce bytes, makes `decryptData` fail with the distinguishable
decryption-failure error `decryptFailMsg` (never a wrong plaintext, never a
different exception). -/
theorem c5_tamper_detection (P : JsPlatform) (key : Nat) (iv : List Nat)
    (s : String) (j i : Nat) (hiv : ∀ b ∈ iv, b < 256) (hi : i < 8) :
    (j < (P.subtleEncrypt key iv (P.textEncode s)).length →
      decryptData P key (encryptData P iv key s).iv
        (arrayBufferToBase64 P
          (flipBitAt (P.subtleEncrypt key iv (P.textEncode s)) j i)) =
        Except.error decryptFailMsg) ∧
    (j < iv.length →
      decryptData P key (arrayBufferToBase64 P (flipBitAt iv j i))
        (encryptData P iv key s).ciphertext = Except.error decryptFailMsg) := by
  constructor
  · intro hj
    unfold decryptData encryptData
    simp only
    rw [base64_roundtrip P iv hiv,
      base64_roundtrip P _
        (flipBitAt_lt_256 _ j i (P.encrypt_byte key iv (P.textEncode s)) hi),
      P.tamper_ct key iv (P.textEncode s) j i hj]
  · intro hj
    unfold decryptData encryptData
    simp only
    rw [base64_roundtrip P _ (flipBitAt_lt_256 iv j i hiv hi),
      base64_roundtrip P _ (P.encrypt_byte key iv (P.textEncode s)),
      P.tamper_iv key iv (flipBitAt iv j i) (P.textEncode s) (flipBitAt_ne iv j i hj)]

theorem c5_witness :
    ((∀ b ∈ [0], b < 256) ∧ (0 : Nat) < 8 ∧
      0 < (toyPlatform.subtleEncrypt 0 [0] (toyPlatform.textEncode "")).length ∧
      (0 : Nat) < ([0] : List Nat).length) ∧
    decryptData toyPlatform 0 (encryptData toyPlatform [0] 0 "").iv
      (arrayBufferToBase64 toyPlatform
        (flipBitAt (toyPlatform.subtleEncrypt 0 [0] (toyPlatform.textEncode "")) 0 0)) =
      Except.error decryptFailMsg ∧
    decryptData toyPlatform 0 (arrayBufferToBase64 toyPlatform (flipBitAt [0] 0 0))
      (encryptData toyPlatform [0] 0 "").ciphertext = Except.error decryptFailMsg :=
  ⟨⟨by decide, by decide, by decide, by decide⟩,
    (c5_tamper_detection toyPlatform 0 [0] "" 0 0 (by decide) (by decide)).1 (by decide),
    (c5_tamper_detection toyPlatform 0 [0] "" 0 0 (by decide) (by decide)).2 (by decide)⟩

/-- C6: `getEncryptionKey` with an empty local store generates a key and
persists the base64 of its raw export; with a populated store it imports the
persisted key and leaves the store unchanged; and a value encrypted under
the first call's key decrypts correctly under the second call's key when the
store persists between the calls. -/
theorem c6_key_persistence (P : JsPlatform) (seed seed2 : Nat) (iv : List Nat)
    (s : String) (hiv : ∀ b ∈ iv, b < 256) :
    (getEncryptionKey P seed none).2 =
      some (arrayBufferToBase64 P (P.subtleExportKey (P.subtleGenerateKey seed))) ∧
    (∀ stored, getEncryptionKey P seed2 (some stored) =
      (P.subtleImportKey (base64ToArrayBuffer P stored), some stored)) ∧
    decryptData P (getEncryptionKey P seed2 (getEncryptionKey P seed none).2).1
      (encryptData P iv (getEncryptionKey P seed none).1 s).iv
      (encryptData P iv (getEncryptionKey P seed none).1 s).ciphertext =
      Except.ok s := by
  refine ⟨rfl, fun stored => rfl, ?_⟩
  have hkey : (getEncryptionKey P seed2 (getEncryptionKey P seed none).2).1 =
      (getEncryptionKey P seed none).1 := by
    show P.subtleImportKey (base64ToArrayBuffer P
      (arrayBufferToBase64 P (P.subtleExportKey (P.subtleGenerateKey seed)))) =
      P.subtleGenerateKey seed
    rw [base64_roundtrip P _ (P.export_byte _), P.import_export]
  rw [hkey]
  exact decryptData_encryptData P _ iv s hiv

theorem c6_witness :
    (∀ b ∈ [1, 2], b < 256) ∧
    decryptData toyPlatform
      (getEncryptionKey toyPlatform 9 (getEncryptionKey toyPlatform 3 none).2).1
      (encryptData toyPlatform [1, 2] (getEncryptionKey toyPlatform 3 none).1 "k").iv
      (encryptData toyPlatform [1, 2] (getEncryptionKey toyPlatform 3 none).1 "k").ciphertext =
      Except.ok "k" :=
  ⟨by decide, (c6_key_persistence toyPlatform 3 9 [1, 2] "k" (by decide)).2.2⟩

/-! ## Dispatcher routing claims -/

/-- Concrete Google response oracle used to instantiate dispatcher claims. -/
def gfetchOk : GoogleFetch :=
  fun _ => Except.ok { data := some { translations := some [{ translatedText := "Bonjour" }] } }

/-- Concrete OpenAI response oracle used to instantiate dispatcher claims. -/
def ofetchOk : OpenAIFetch :=
  fun _ => Except.ok { choices := some [{ message := { content := "  Hallo  " } }] }

/-- Settings with Google selected and an encrypted Google credential
present. -/
def googleSelectedSettings : TPSettings :=
  { encryptedGoogleApiKey := some { iv := "ivB64", ciphertext := "ctB64" }
    encryptedOpenaiApiKey := none
    targetLanguage := "fr"
    targetLanguageName := "French"
    openaiPrompt := defaultOpenAIPrompt
    translationService := some "Google" }

/-- C3: with `translationService = 'Google'` and an encrypted Google
credential stored, the background.js variant of `translatePost` tests the
empty local `googleApiKey` variable instead of `encryptedGoogleApiKey`, so
it throws without issuing any HTTP request — whereas the
src/unnamed/part_001 variant routes to the Google path (its result is
exactly the decrypt-then-`translateWithGoogle` composition). -/
theorem c3_google_branch_unreachable :
    translatePostLegacy toyPlatform 0 none gfetchOk ofetchOk
      googleSelectedSettings "Bonjour" =
      (Except.error "Invalid translation service or missing API key.", []) ∧
    translatePost toyPlatform 0 none gfetchOk ofetchOk
      googleSelectedSettings "Bonjour" =
      (match decryptData toyPlatform (getEncryptionKey toyPlatform 0 none).1
          "ivB64" "ctB64" with
        | Except.error e => (Except.error e, [])
        | Except.ok googleApiKey =>
          translateWithGoogle toyPlatform gfetchOk "Bonjour" googleApiKey "fr") := by
  constructor
  · rfl
  · rfl

/-- Settings with a provider selected but no stored credential for it. -/
def googleNoCredSettings : TPSettings :=
  { encryptedGoogleApiKey := none
    encryptedOpenaiApiKey := none
    targetLanguage := "fr"
    targetLanguageName := "French"
    openaiPrompt := defaultOpenAIPrompt
    translationService := some "Google" }

/-- C4: when the selected provider's encrypted credential is absent,
`translatePost` (both the src/unnamed/part_001 variant and the background.js
variant) fails with the missing-credential error and issues no outbound HTTP
request — it never falls back to the other provider. -/
theorem c4_missing_credential (P : JsPlatform) (seed : Nat)
    (localKey : Option String) (gfetch : GoogleFetch) (ofetch : OpenAIFetch)
    (settings : TPSettings) (post : String) :
    (settings.translationService = some "Google" →
      settings.encryptedGoogleApiKey = none →
      translatePost P seed localKey gfetch ofetch settings post =
        (Except.error "Invalid translation service or missing API key.", []) ∧
      translatePostLegacy P seed localKey gfetch ofetch settings post =
        (Except.error "Invalid translation service or missing API key.", [])) ∧
    (settings.translationService = some "OpenAI" →
      settings.encryptedOpenaiApiKey = none →
      translatePost P seed localKey gfetch ofetch settings post =
        (Except.error "Invalid translation service or missing API key.", []) ∧
      translatePostLegacy P seed localKey gfetch ofetch settings post =
        (Except.error "Invalid translation service or missing API key.", [])) := by
  obtain ⟨encG, encO, tl, tln, pr, ts⟩ := settings
  constructor
  · intro hsvc hsec
    simp only at hsvc hsec
    subst hsvc
    subst hsec
    have h2 : "Google" = "OpenAI" ↔ False := by simp
    constructor
    · simp [translatePost, h2]
    · simp [translatePostLegacy, h2]
  · intro hsvc hsec
    simp only at hsvc hsec
    subst hsvc
    subst hsec
    have h1 : "OpenAI" = "Google" ↔ False := by simp
    constructor
    · simp [translatePost, h1]
    · simp [translatePostLegacy, h1]

theorem c4_witness :
    (googleNoCredSettings.translationService = some "Google" ∧
      googleNoCredSettings.encryptedGoogleApiKey = none) ∧
    translatePost toyPlatform 0 none gfetchOk ofetchOk googleNoCredSettings "hi" =
      (Except.error "Invalid translation service or missing API key.", []) ∧
    translatePostLegacy toyPlatform 0 none gfetchOk ofetchOk googleNoCredSettings "hi" =
      (Except.error "Invalid translation service or missing API key.", []) :=
  ⟨⟨rfl, rfl⟩,
    ((c4_missing_credential toyPlatform 0 none gfetchOk ofetchOk
      googleNoCredSettings "hi").1 rfl rfl).1,
    ((c4_missing_credential toyPlatform 0 none gfetchOk ofetchOk
      googleNoCredSettings "hi").1 rfl rfl).2⟩

/-! ## C7: the OpenAI prompt substitution -/

/-- C7 counterexample: with template `{TEXT} and {TEXT}` the single request
sent by `translateWithOpenAI` still carries an unsubstituted `{TEXT}`
occurrence in its user message — not every occurrence of the placeholder is
replaced. -/
theorem c7_counterexample :
    (translateWithOpenAI ofetchOk "x" "key" "fr" "{TEXT} and {TEXT}").2 =
      [HttpRequest.post openAIChatUrl
        { model := "gpt-4o-mini"
          messages := [openAISystemMessage,
            { role := "user", content := "x and {TEXT}" }] }] ∧
    ("x and {TEXT}" : String) ≠ "x and x" := by
  constructor
  · rfl
  · decide

/-- C7 (amended): the OpenAI path substitutes the *first* occurrence of
`{TARGET}` and the first occurrence of `{TEXT}` in the stored template —
with the replacement values interpreted under the JS `GetSubstitution`
dollar-escapes, as `promptWithTarget` does — sends exactly one POST to the
chat-completions endpoint carrying that prompt
as the user message, and returns the first choice's message content with
surrounding whitespace trimmed. -/
theorem c7_openai_first_occurrence (ofetch : OpenAIFetch)
    (text apiKey targetLanguageName prompt : String)
    (resp : OpenAIResponse) (c : OpenAIChoice) (cs : List OpenAIChoice)
    (hresp : ofetch (openAIRequestBody prompt targetLanguageName text) = Except.ok resp)
    (hchoices : resp.choices = some (c :: cs)) :
    translateWithOpenAI ofetch text apiKey targetLanguageName prompt =
      (Except.ok (jsTrim c.message.content),
        [HttpRequest.post openAIChatUrl
          (openAIRequestBody prompt targetLanguageName text)]) := by
  simp only [translateWithOpenAI, hresp, hchoices]

theorem c7_witness :
    (ofetchOk (openAIRequestBody defaultOpenAIPrompt "German" "Hi") =
      Except.ok { choices := some [{ message := { content := "  Hallo  " } }] } ∧
      ({ choices := some [{ message := { content := "  Hallo  " } }] } :
        OpenAIResponse).choices = some [{ message := { content := "  Hallo  " } }]) ∧
    translateWithOpenAI ofetchOk "Hi" "key" "German" defaultOpenAIPrompt =
      (Except.ok (jsTrim "  Hallo  "),
        [HttpRequest.post openAIChatUrl
          (openAIRequestBody defaultOpenAIPrompt "German" "Hi")]) :=
  ⟨⟨rfl, rfl⟩,
    c7_openai_first_occurrence ofetchOk "Hi" "key" "German" defaultOpenAIPrompt
      { choices := some [{ message := { content := "  Hallo  " } }] }
      { message := { content := "  Hallo  " } } [] rfl rfl⟩

/-! ## C2: the rate limiter -/

theorem rlPerUrl_updates (tracker : String → Nat) (url : String) (now : Nat) :
    (rateLimitedApiCallPerUrl tracker url now).2 url =
      (rateLimitedApiCallPerUrl tracker url now).1 := by
  simp only [rateLimitedApiCallPerUrl]
  split <;> simp

theorem rlPerUrl_other (tracker : String → Nat) (url url' : String) (now : Nat)
    (h : url' ≠ url) :
    (rateLimitedApiCallPerUrl tracker url now).2 url' = tracker url' := by
  simp only [rateLimitedApiCallPerUrl]
  split <;> simp [h]

theorem rlPerUrl_spacing_gen (st : String → Nat) (url : String) (f now2 : Nat)
    (hst : st url = f) (hle : f ≤ now2) :
    (rateLimitedApiCallPerUrl st url now2).1 ≥ f + 2000 := by
  simp only [rateLimitedApiCallPerUrl, hst]
  split <;> omega

theorem rlGlobal_updates (last now : Nat) :
    (rateLimitedApiCallGlobal last now).2 = (rateLimitedApiCallGlobal last now).1 := by
  simp only [rateLimitedApiCallGlobal]
  split <;> simp

theorem rlGlobal_spacing_gen (f now2 : Nat) (hle : f ≤ now2) :
    (rateLimitedApiCallGlobal f now2).1 ≥ f + 2000 := by
  simp only [rateLimitedApiCallGlobal]
  split <;> omega

/-- C2 counterexample: in the src/unnamed/part_001 dispatcher the rate-limit
timestamp is per URL, so two back-to-back provider requests to *different*
URLs are not mutually delayed: with a fresh tracker, a call to the OpenAI
endpoint at t=10000 fetches at t=10000, and an immediately following call to
the Google endpoint also fetches at t=10000 — earlier than the claimed
10000 + 2000. -/
theorem c2_counterexample :
    (rateLimitedApiCallPerUrl
        (rateLimitedApiCallPerUrl (fun _ => 0) openAIChatUrl 10000).2
        "https://translation.googleapis.com/language/translate/v2" 10000).1 <
      (rateLimitedApiCallPerUrl (fun _ => 0) openAIChatUrl 10000).1 + 2000 := by
  decide

/-- C2 (amended): the part_001 limiter is keyed per request URL — the
timestamp entry for the called URL is set to the fetch instant (before the
fetch resolves), other URLs' entries are untouched, and two sequentially
issued calls to the *same* URL are spaced at least 2000 ms apart; the
part_002 variant keeps the single process-wide timestamp with the claimed
update-at-issue and 2000 ms sequential spacing across both providers. -/
theorem c2_rate_limit_amended (tracker : String → Nat) (url url' : String)
    (now now2 last lnow lnow2 : Nat) :
    (rateLimitedApiCallPerUrl tracker url now).2 url =
      (rateLimitedApiCallPerUrl tracker url now).1 ∧
    (url' ≠ url → (rateLimitedApiCallPerUrl tracker url now).2 url' = tracker url') ∧
    ((rateLimitedApiCallPerUrl tracker url now).1 ≤ now2 →
      (rateLimitedApiCallPerUrl (rateLimitedApiCallPerUrl tracker url now).2 url now2).1 ≥
        (rateLimitedApiCallPerUrl tracker url now).1 + 2000) ∧
    (rateLimitedApiCallGlobal last lnow).2 = (rateLimitedApiCallGlobal last lnow).1 ∧
    ((rateLimitedApiCallGlobal last lnow).1 ≤ lnow2 →
      (rateLimitedApiCallGlobal (rateLimitedApiCallGlobal last lnow).2 lnow2).1 ≥
        (rateLimitedApiCallGlobal last lnow).1 + 2000) := by
  refine ⟨rlPerUrl_updates tracker url now, rlPerUrl_other tracker url url' now, ?_, 
    rlGlobal_updates last lnow, ?_⟩
  · intro hle
    exact rlPerUrl_spacing_gen _ url _ now2 (rlPerUrl_updates tracker url now) hle
  · intro hle
    rw [rlGlobal_updates last lnow]
    exact rlGlobal_spacing_gen _ lnow2 hle

theorem c2_witness :
    (("b" : String) ≠ "a" ∧
      (rateLimitedApiCallPerUrl (fun _ => 0) "a" 5000).1 ≤ 5000 ∧
      (rateLimitedApiCallGlobal 0 5000).1 ≤ 5000) ∧
    (rateLimitedApiCallPerUrl (fun _ => 0) "a" 5000).2 "b" = (fun _ => (0 : Nat)) "b" ∧
    (rateLimitedApiCallPerUrl (rateLimitedApiCallPerUrl (fun _ => 0) "a" 5000).2 "a" 5000).1 ≥
      (rateLimitedApiCallPerUrl (fun _ => 0) "a" 5000).1 + 2000 ∧
    (rateLimitedApiCallGlobal (rateLimitedApiCallGlobal 0 5000).2 5000).1 ≥
      (rateLimitedApiCallGlobal 0 5000).1 + 2000 :=
  ⟨⟨by decide, by decide, by decide⟩,
    (c2_rate_limit_amended (fun _ => 0) "a" "b" 5000 5000 0 5000 5000).2.1 (by decide),
    (c2_rate_limit_amended (fun _ => 0) "a" "b" 5000 5000 0 5000 5000).2.2.1 (by decide),
    (c2_rate_limit_amended (fun _ => 0) "a" "b" 5000 5000 0 5000 5000).2.2.2.2 (by decide)⟩

/-! ## C8 and C9: the Page Bridge -/

/-- C8: the first contentScript.js version's guard
(`querySelector('.babbelsky-translated-text')`) blocks a second insertion,
but the second version's guard selector demands a `data-original` attribute
that the inserted paragraphs never carry (and interpolates the undefined
`translateButton.dataset.original` as the string `undefined`), so it never
matches and a second successful activation inserts a second
`babbelsky-translated-text` block into the same post. -/
theorem c8_duplicate_insertion :
    addTranslatedTextV1 (addTranslatedTextV1 [] "t") "t" =
      [{ className := "babbelsky-translated-text", dataOriginal := none, text := "t" }] ∧
    addTranslatedTextV2 none (addTranslatedTextV2 none [] "t") "t" =
      [{ className := "babbelsky-translated-text", dataOriginal := none, text := "t" },
       { className := "babbelsky-translated-text", dataOriginal := none, text := "t" }] := by
  constructor
  · rfl
  · rfl

theorem attachStepV1_mutation_absorb (s : ControlState) (h : s.marker = true) :
    attachStepV1 s BridgeEvent.mutation = s := by
  simp [attachStepV1, h]

theorem attachStepV2_mutation_absorb (s : ControlState) (h : s.marker = true) :
    attachStepV2 s BridgeEvent.mutation = s := by
  simp [attachStepV2, h]

theorem foldl_mutation_absorb (step : ControlState → BridgeEvent → ControlState)
    (hstep : ∀ s, s.marker = true → step s BridgeEvent.mutation = s) :
    ∀ (evs : List BridgeEvent) (s : ControlState),
      (∀ e ∈ evs, e = BridgeEvent.mutation) → s.marker = true →
      evs.foldl step s = s := by
  intro evs
  induction evs with
  | nil => intro s _ _; rfl
  | cons e rest ih =>
    intro s hall hm
    have he : e = BridgeEvent.mutation := hall e (by simp)
    subst he
    rw [List.foldl_cons, hstep s hm]
    exact ih s (fun e' h' => hall e' (by simp [h'])) hm

/-- C9 counterexample: in the first contentScript.js version, `initialize`
attaches the click handler without checking or setting the
`data-babbelsky-listener` marker, so an initialisation followed by one
MutationObserver sighting of the same control attaches two handlers —
refuting "attached at most once per control instance, enforced by checking
and setting the marker attribute before each attachment". -/
theorem c9_counterexample :
    ¬ (runBridge attachStepV1 [BridgeEvent.pageInit, BridgeEvent.mutation]).listeners ≤ 1 := by
  decide

/-- C9 (amended): the marker guard protects only the MutationObserver path —
any sequence of observer sightings attaches at most one handler in both
contentScript.js versions, and in the second version an initialisation
followed by observer sightings also attaches at most one (because its
`initialize` sets the marker after attaching); but the `initialize` path
itself never checks the marker, which is what the counterexample exploits. -/
theorem c9_marker_guard (evs : List BridgeEvent)
    (hobs : ∀ e ∈ evs, e = BridgeEvent.mutation) :
    (runBridge attachStepV1 evs).listeners ≤ 1 ∧
    (runBridge attachStepV2 evs).listeners ≤ 1 ∧
    (runBridge attachStepV2 (BridgeEvent.pageInit :: evs)).listeners ≤ 1 := by
  refine ⟨?_, ?_, ?_⟩
  · cases evs with
    | nil => decide
    | cons e rest =>
      have he := hobs e (by simp)
      subst he
      show ((BridgeEvent.mutation :: rest).foldl attachStepV1 ⟨0, false⟩).listeners ≤ 1
      rw [List.foldl_cons]
      have h1 : attachStepV1 ⟨0, false⟩ BridgeEvent.mutation = ⟨1, true⟩ := rfl
      rw [h1, foldl_mutation_absorb attachStepV1 attachStepV1_mutation_absorb rest
        ⟨1, true⟩ (fun e' h' => hobs e' (by simp [h'])) rfl]
  · cases evs with
    | nil => decide
    | cons e rest =>
      have he := hobs e (by simp)
      subst he
      show ((BridgeEvent.mutation :: rest).foldl attachStepV2 ⟨0, false⟩).listeners ≤ 1
      rw [List.foldl_cons]
      have h1 : attachStepV2 ⟨0, false⟩ BridgeEvent.mutation = ⟨1, true⟩ := rfl
      rw [h1, foldl_mutation_absorb attachStepV2 attachStepV2_mutation_absorb rest
        ⟨1, true⟩ (fun e' h' => hobs e' (by simp [h'])) rfl]
  · show ((BridgeEvent.pageInit :: evs).foldl attachStepV2 ⟨0, false⟩).listeners ≤ 1
    rw [List.foldl_cons]
    have h1 : attachStepV2 ⟨0, false⟩ BridgeEvent.pageInit = ⟨1, true⟩ := rfl
    rw [h1, foldl_mutation_absorb attachStepV2 attachStepV2_mutation_absorb evs
      ⟨1, true⟩ hobs rfl]

theorem c9_witness :
    (∀ e ∈ [BridgeEvent.mutation, BridgeEvent.mutation], e = BridgeEvent.mutation) ∧
    (runBridge attachStepV1 [BridgeEvent.mutation, BridgeEvent.mutation]).listeners ≤ 1 ∧
    (runBridge attachStepV2 [BridgeEvent.mutation, BridgeEvent.mutation]).listeners ≤ 1 ∧
    (runBridge attachStepV2
      [BridgeEvent.pageInit, BridgeEvent.mutation, BridgeEvent.mutation]).listeners ≤ 1 :=
  ⟨by decide,
    (c9_marker_guard [BridgeEvent.mutation, BridgeEvent.mutation] (by decide)).1,
    (c9_marker_guard [BridgeEvent.mutation, BridgeEvent.mutation] (by decide)).2.1,
    (c9_marker_guard [BridgeEvent.mutation, BridgeEvent.mutation] (by decide)).2.2⟩

/-! ## C10: the saveOptions pairing invariant -/

/-- C10: `saveOptions` persists `translationService = 'OpenAI'` only when
the OpenAI box is checked and a non-empty OpenAI key is being encrypted and
stored in the same save; likewise for `'Google'`; and whenever neither
pairing holds it persists `translationService` as null. -/
theorem c10_service_credential_pairing (P : JsPlatform) (ivG ivO : List Nat)
    (key : Nat) (inp : SaveInputs) :
    ((saveOptions P ivG ivO key inp).translationService = some "OpenAI" →
      inp.serviceOpenAIChecked = true ∧ jsTrim inp.openaiApiKeyField ≠ "" ∧
      (saveOptions P ivG ivO key inp).encryptedOpenaiApiKey =
        some (encryptData P ivO key (jsTrim inp.openaiApiKeyField))) ∧
    ((saveOptions P ivG ivO key inp).translationService = some "Google" →
      inp.serviceGoogleChecked = true ∧ jsTrim inp.googleApiKeyField ≠ "" ∧
      (saveOptions P ivG ivO key inp).encryptedGoogleApiKey =
        some (encryptData P ivG key (jsTrim inp.googleApiKeyField))) ∧
    (¬(inp.serviceOpenAIChecked = true ∧ jsTrim inp.openaiApiKeyField ≠ "") →
      ¬(inp.serviceGoogleChecked = true ∧ jsTrim inp.googleApiKeyField ≠ "") →
      (saveOptions P ivG ivO key inp).translationService = none) := by
  by_cases hO : inp.serviceOpenAIChecked = true ∧ jsTrim inp.openaiApiKeyField ≠ ""
  · have hts : (saveOptions P ivG ivO key inp).translationService = some "OpenAI" := by
      simp [saveOptions, hO]
    refine ⟨fun _ => ⟨hO.1, hO.2, ?_⟩, fun hg => ?_, fun hno _ => absurd hO hno⟩
    · simp [saveOptions, hO.2]
    · rw [hts] at hg
      exact absurd (Option.some.inj hg) (by decide)
  · by_cases hG : inp.serviceGoogleChecked = true ∧ jsTrim inp.googleApiKeyField ≠ ""
    · have hts : (saveOptions P ivG ivO key inp).translationService = some "Google" := by
        simp [saveOptions, hO, hG]
      refine ⟨fun ho => ?_, fun _ => ⟨hG.1, hG.2, ?_⟩, fun _ hno => absurd hG hno⟩
      · rw [hts] at ho
        exact absurd (Option.some.inj ho) (by decide)
      · simp [saveOptions, hG.2]
    · have hts : (saveOptions P ivG ivO key inp).translationService = none := by
        simp [saveOptions, hO, hG]
      refine ⟨fun ho => ?_, fun hg => ?_, fun _ _ => hts⟩
      · rw [hts] at ho
        exact Option.noConfusion ho
      · rw [hts] at hg
        exact Option.noConfusion hg

/-- Concrete save-form inputs: a box is checked but its key field is empty,
so no service/credential pairing exists. -/
def noPairInputs : SaveInputs :=
  { googleApiKeyField := ""
    openaiApiKeyField := ""
    targetLanguage := "en"
    openaiPromptField := ""
    serviceOpenAIChecked := true
    serviceGoogleChecked := false }

theorem c10_witness :
    (¬(noPairInputs.serviceOpenAIChecked = true ∧
        jsTrim noPairInputs.openaiApiKeyField ≠ "") ∧
      ¬(noPairInputs.serviceGoogleChecked = true ∧
        jsTrim noPairInputs.googleApiKeyField ≠ "")) ∧
    (saveOptions toyPlatform [1] [2] 0 noPairInputs).translationService = none :=
  ⟨⟨by decide, by decide⟩,
    (c10_service_credential_pairing toyPlatform [1] [2] 0 noPairInputs).2.2
      (by decide) (by decide)⟩
